import Mathlib

/-!
# NBody (MusicVis): frame pacing and command submission

A shallow embedding of `Source/NBody.cpp`: the graphics context, bring-up
(`SetupGraphics`), per-frame recording (`DrawScene`), fence-based pacing
(`PresentFrame`) and the main loop (`WinMain`).

Conventions of the embedding

* COM pointers and handles are natural numbers, `0` being `nullptr`.
* `uint32_t` / `uint64_t` values are natural numbers; every operation that can
  wrap is written with an explicit `% U32` / `% U64`.
* `D3D12_CPU_DESCRIPTOR_HANDLE::ptr` is a `SIZE_T`; its width is the parameter
  `ptrBits` (64 on an x64 build, 32 on an x86 build).
* Calls into Direct3D / DXGI / Win32 are appended to `World.calls`, oldest
  first.  Values that the outside world returns (the fence's completed value,
  the current back-buffer index, created objects, pumped messages) are inputs.
* The GPU side of the frame fence is two fields of `World`: the value
  `GetCompletedValue` would return now, and the last value passed to
  `cmdQueue->Signal`.
* The fence model (`fenceStep`, `fenceReplay`, `PresentOk`, `DrawOk`,
  `FenceModel`) constrains what the outside world may answer.  For
  `PresentFrame` it is a predicate on the calls that `PresentFrame` logs: it
  knows `Signal`, `GetCompletedValue`, `SetEventOnCompletion` and
  `WaitForSingleObject`, not the control flow of `PresentFrame`.
-/

namespace NBody

/-- A COM pointer or handle; `0` is `nullptr`. -/
abbrev Ptr := Nat

/-- Modulus of `uint32_t`. -/
def U32 : Nat := 2 ^ 32

/-- Modulus of `uint64_t`. -/
def U64 : Nat := 2 ^ 64

/-- Unsigned 64-bit subtraction `a - b`, for `a < U64`. -/
def sub64 (a b : Nat) : Nat := (a + U64 - b % U64) % U64

/-- The two resource states the program uses. -/
inductive ResourceState
  | PRESENT
  | RENDER_TARGET
  deriving DecidableEq, Repr

/-- Commands recorded into the command list by `DrawScene`.  The viewport and
scissor rectangle carry their width and height; the clear colour (a float
constant) is left out. -/
inductive Cmd
  | RSSetViewports (width height : Nat)
  | RSSetScissorRects (right bottom : Nat)
  | ResourceBarrier (pResource : Ptr) (StateBefore StateAfter : ResourceState)
  | OMSetRenderTargets (rtvHandle : Nat)
  | ClearRenderTargetView (rtvHandle : Nat)
  | SetPipelineState (pso : Ptr)
  | SetGraphicsRootSignature (rs : Ptr)
  | IASetPrimitiveTopology
  | DrawInstanced (VertexCountPerInstance InstanceCount StartVertexLocation StartInstanceLocation : Nat)
  deriving DecidableEq, Repr

/-- Functions of the program that `WinMain` calls. -/
inductive Fn
  | SetupWindow
  | SetupGraphics
  | SetupGraphicsResources
  | UpdateFrameTime
  | UpdateScene
  | DrawScene
  | PresentFrame
  deriving DecidableEq, Repr

/-- Calls the program makes, in the order of the source.  `AllocatorReset i`,
`ListReset i` and `ExecuteCommandLists i _` carry the index `i` of the
allocator in `cmdAlloc` that is reset, respectively that the submitted list
was recorded into. -/
inductive Call
  | CreateDXGIFactory1
  | D3D12CreateDevice (succeeded : Bool)
  | CreateCommandQueue
  | CreateSwapChain (BufferCount : Nat)
  | CreateCommandAllocator (i : Nat)
  | GetDescriptorHandleIncrementSize
  | CreateDescriptorHeap (NumDescriptors : Nat)
  | GetBuffer (i : Nat)
  | CreateRenderTargetView (pResource : Ptr) (handle : Nat)
  | CreateFence (InitialValue : Nat)
  | CreateEventEx
  | CreateCommandList (alloc : Nat)
  | CloseCommandList
  | AllocatorReset (i : Nat)
  | ListReset (i : Nat)
  | ExecuteCommandLists (i : Nat) (cmds : List Cmd)
  | Present
  | Signal (Value : Nat)
  | GetCompletedValue (ret : Nat)
  | SetEventOnCompletion (Value : Nat)
  | WaitForSingleObject
  | GetCurrentBackBufferIndex (ret : Nat)
  | LoadFile
  | CreateGraphicsPipelineState
  | CreateRootSignature
  | invoke (f : Fn)
  deriving DecidableEq, Repr

/-- The fields of `struct GraphicsContext`. -/
structure GraphicsContext where
  device : Ptr
  cmdQueue : Ptr
  cmdAlloc : List Ptr
  cmdList : Ptr
  swapBuffers : List Ptr
  swapBuffersHeap : Ptr
  swapBuffersHeapStart : Nat
  descriptorSize : Nat
  descriptorSizeRtv : Nat
  backBufferIndex : Nat
  frameIndex : Nat
  factory : Ptr
  swapChain : Ptr
  frameFence : Ptr
  frameFenceEvent : Ptr
  deriving DecidableEq, Repr

/-- The fields of `struct GraphicsResources`. -/
structure GraphicsResources where
  vb : List Ptr
  pso : Ptr
  rs : Ptr
  deriving DecidableEq, Repr

/-- `GraphicsContext gr = {};` in `WinMain`. -/
def GraphicsContext.zero : GraphicsContext where
  device := 0
  cmdQueue := 0
  cmdAlloc := [0, 0]
  cmdList := 0
  swapBuffers := [0, 0, 0, 0]
  swapBuffersHeap := 0
  swapBuffersHeapStart := 0
  descriptorSize := 0
  descriptorSizeRtv := 0
  backBufferIndex := 0
  frameIndex := 0
  factory := 0
  swapChain := 0
  frameFence := 0
  frameFenceEvent := 0

/-- `GraphicsResources grRes = {};` in `WinMain`. -/
def GraphicsResources.zero : GraphicsResources where
  vb := [0, 0]
  pso := 0
  rs := 0

/-- Program state together with the GPU side of the frame fence and the log of
calls made so far (oldest first). -/
structure World where
  gr : GraphicsContext
  /-- The function-local `static uint64_t cpuCompletedFrames` of `PresentFrame`. -/
  cpuCompletedFrames : Nat
  /-- What `frameFence->GetCompletedValue()` would return now. -/
  fenceCompleted : Nat
  /-- The last value passed to `cmdQueue->Signal` (the initial value of the
  fence before the first signal). -/
  fenceSignalled : Nat
  calls : List Call
  deriving DecidableEq, Repr

/-- State at the start of `WinMain`: zero-initialised context, static counter 0. -/
def World.start : World where
  gr := GraphicsContext.zero
  cpuCompletedFrames := 0
  fenceCompleted := 0
  fenceSignalled := 0
  calls := []

/-- What the outside world hands to one call of `PresentFrame`. -/
structure PresentEnv where
  /-- Value returned by `GetCompletedValue()` on line 119. -/
  gpuRead : Nat
  /-- Completed value of the fence at the moment `PresentFrame` returns. -/
  gpuReturn : Nat
  /-- Value returned by `GetCurrentBackBufferIndex()` on line 127. -/
  backBuffer : Nat
  deriving DecidableEq, Repr

/-- `PresentFrame(gr)`, lines 111-129. -/
def PresentFrame (w : World) (e : PresentEnv) : World :=
  let cpuCompletedFrames := (w.cpuCompletedFrames + 1) % U64
  let gpuCompletedFrames := e.gpuRead
  let pacing : List Call :=
    if 2 ≤ sub64 cpuCompletedFrames gpuCompletedFrames then
      [Call.SetEventOnCompletion ((gpuCompletedFrames + 1) % U64), Call.WaitForSingleObject]
    else []
  { gr := { w.gr with
        backBufferIndex := e.backBuffer
        frameIndex := if w.gr.frameIndex = 0 then 1 else 0 }
    cpuCompletedFrames := cpuCompletedFrames
    fenceCompleted := e.gpuReturn
    fenceSignalled := cpuCompletedFrames
    calls := w.calls
      ++ [Call.Present, Call.Signal cpuCompletedFrames, Call.GetCompletedValue gpuCompletedFrames]
      ++ pacing ++ [Call.GetCurrentBackBufferIndex e.backBuffer] }

/-- The descriptor handle computed on lines 152-153 of `DrawScene`: the product
is a `uint32_t`, the sum is a `SIZE_T` of `ptrBits` bits. -/
def rtvHandle (ptrBits : Nat) (gr : GraphicsContext) : Nat :=
  (gr.swapBuffersHeapStart + (gr.backBufferIndex * gr.descriptorSizeRtv) % U32) % 2 ^ ptrBits

/-- The commands `DrawScene` records between `cmdList->Reset` and
`cmdList->Close` (lines 140-167), for the back buffer `pResource` and the
descriptor handle `rtv`. -/
def recorded (pResource : Ptr) (rtv : Nat) (res : GraphicsResources) : List Cmd :=
  [ Cmd.RSSetViewports 1280 720,
    Cmd.RSSetScissorRects 1280 720,
    Cmd.ResourceBarrier pResource ResourceState.PRESENT ResourceState.RENDER_TARGET,
    Cmd.OMSetRenderTargets rtv,
    Cmd.ClearRenderTargetView rtv,
    Cmd.SetPipelineState res.pso,
    Cmd.SetGraphicsRootSignature res.rs,
    Cmd.IASetPrimitiveTopology,
    Cmd.DrawInstanced 3 1 0 0,
    Cmd.ResourceBarrier pResource ResourceState.RENDER_TARGET ResourceState.PRESENT ]

/-- `DrawScene(gr, res)`, lines 131-172.  `gpuAtReset` is the completed value of
the fence at the moment of `cmdAlloc->Reset()`.  An out-of-bounds read of
`cmdAlloc` or `swapBuffers` has no defined result: `none`. -/
def DrawScene (ptrBits : Nat) (w : World) (res : GraphicsResources) (gpuAtReset : Nat) :
    Option World := do
  let _cmdAlloc ← w.gr.cmdAlloc[w.gr.frameIndex]?
  let pResource ← w.gr.swapBuffers[w.gr.backBufferIndex]?
  let cmds := recorded pResource (rtvHandle ptrBits w.gr) res
  some { w with
    fenceCompleted := gpuAtReset
    calls := w.calls ++ [Call.AllocatorReset w.gr.frameIndex, Call.ListReset w.gr.frameIndex,
      Call.ExecuteCommandLists w.gr.frameIndex cmds] }

/-- What the outside world hands to `SetupGraphics`: the created objects, the
two descriptor increments and the start of the RTV heap.  `device = none`
stands for `FAILED(D3D12CreateDevice(...))`; every other creation call is taken
to succeed (its failure trips `assert(0)` in `VHR`). -/
structure SetupEnv where
  factory : Ptr
  device : Option Ptr
  cmdQueue : Ptr
  swapChain : Ptr
  cmdAlloc : List Ptr
  descriptorSize : Nat
  descriptorSizeRtv : Nat
  swapBuffersHeap : Ptr
  heapStart : Nat
  buffers : List Ptr
  frameFence : Ptr
  frameFenceEvent : Ptr
  cmdList : Ptr
  deriving DecidableEq, Repr

/-- Body of the loop on lines 264-267, for one `i`. -/
def createAllocator (env : SetupEnv) (w : World) (i : Nat) : World :=
  { w with
    gr := { w.gr with cmdAlloc := w.gr.cmdAlloc.set i (env.cmdAlloc.getD i 0) }
    calls := w.calls ++ [Call.CreateCommandAllocator i] }

/-- Body of the loop on lines 282-288, for one `i`; the second component is the
local `handle.ptr`, a `SIZE_T` of `ptrBits` bits. -/
def createView (ptrBits : Nat) (env : SetupEnv) (s : World × Nat) (i : Nat) : World × Nat :=
  let w := s.1
  let handle := s.2
  let swapBuffers := w.gr.swapBuffers.set i (env.buffers.getD i 0)
  ({ w with
      gr := { w.gr with swapBuffers := swapBuffers }
      calls := w.calls ++ [Call.GetBuffer i,
        Call.CreateRenderTargetView (swapBuffers.getD i 0) handle] },
   (handle + w.gr.descriptorSizeRtv) % 2 ^ ptrBits)

/-- `SetupGraphics(gr, window)`, lines 221-300.  The result is `none` when one
of the two leading assertions fails. -/
def SetupGraphics (ptrBits : Nat) (w : World) (window : Ptr) (env : SetupEnv) :
    Option (Bool × World) :=
  if w.gr.device ≠ 0 then none
  else if window = 0 then none
  else
    let w := { w with gr := { w.gr with factory := env.factory },
                      calls := w.calls ++ [Call.CreateDXGIFactory1] }
    match env.device with
    | none => some (false, { w with calls := w.calls ++ [Call.D3D12CreateDevice false] })
    | some device =>
      let w := { w with gr := { w.gr with device := device },
                        calls := w.calls ++ [Call.D3D12CreateDevice true] }
      let w := { w with gr := { w.gr with cmdQueue := env.cmdQueue },
                        calls := w.calls ++ [Call.CreateCommandQueue] }
      let w := { w with gr := { w.gr with swapChain := env.swapChain },
                        calls := w.calls ++ [Call.CreateSwapChain 4] }
      let w := [0, 1].foldl (createAllocator env) w
      let w := { w with gr := { w.gr with descriptorSize := env.descriptorSize % U32,
                                          descriptorSizeRtv := env.descriptorSizeRtv % U32 },
                        calls := w.calls ++ [Call.GetDescriptorHandleIncrementSize,
                          Call.GetDescriptorHandleIncrementSize] }
      let w := { w with gr := { w.gr with swapBuffersHeap := env.swapBuffersHeap,
                                          swapBuffersHeapStart := env.heapStart % 2 ^ ptrBits },
                        calls := w.calls ++ [Call.CreateDescriptorHeap 4] }
      let w := ([0, 1, 2, 3].foldl (createView ptrBits env) (w, w.gr.swapBuffersHeapStart)).1
      let w := { w with gr := { w.gr with frameFence := env.frameFence },
                        fenceCompleted := 0, fenceSignalled := 0,
                        calls := w.calls ++ [Call.CreateFence 0] }
      let w := { w with gr := { w.gr with frameFenceEvent := env.frameFenceEvent },
                        calls := w.calls ++ [Call.CreateEventEx] }
      if w.gr.frameFenceEvent = 0 then none
      else
        some (true, { w with gr := { w.gr with cmdList := env.cmdList },
                             calls := w.calls ++ [Call.CreateCommandList 0, Call.CloseCommandList] })

/-- What the outside world hands to `SetupGraphicsResources`: whether the two
shader files could be opened and read, and the two created objects. -/
structure ResourcesEnv where
  shadersLoaded : Bool
  pso : Ptr
  rs : Ptr
  deriving DecidableEq, Repr

/-- `SetupGraphicsResources(res, gr)`, lines 302-324.  `none` when `LoadFile`
trips its assertion. -/
def SetupGraphicsResources (w : World) (res : GraphicsResources) (env : ResourcesEnv) :
    Option (Bool × GraphicsResources × World) :=
  if env.shadersLoaded then
    some (true, { res with pso := env.pso, rs := env.rs },
      { w with calls := w.calls ++ [Call.LoadFile, Call.LoadFile,
          Call.CreateGraphicsPipelineState, Call.CreateRootSignature] })
  else none

/-- What the outside world hands to one iteration of the main loop that renders:
the fence's completed value when `DrawScene` resets the allocator, and the
inputs of `PresentFrame`. -/
structure FrameEnv where
  gpuAtReset : Nat
  present : PresentEnv
  deriving DecidableEq, Repr

/-- One rendering iteration of the main loop: `DrawScene(gr, grRes); PresentFrame(gr);`. -/
def frame (ptrBits : Nat) (res : GraphicsResources) (w : World) (e : FrameEnv) : Option World :=
  (DrawScene ptrBits w res e.gpuAtReset).map fun w1 => PresentFrame w1 e.present

/-- Consecutive rendering iterations of the main loop. -/
def runFrames (ptrBits : Nat) (res : GraphicsResources) : World → List FrameEnv → Option World
  | w, [] => some w
  | w, e :: es => (frame ptrBits res w e).bind fun w1 => runFrames ptrBits res w1 es

/-- Consecutive calls of `PresentFrame`. -/
def presents (w : World) (es : List PresentEnv) : World :=
  es.foldl PresentFrame w

/-- A call of `DrawScene` or of `PresentFrame`, with its inputs. -/
inductive Op
  | draw (gpuAtReset : Nat)
  | present (e : PresentEnv)
  deriving DecidableEq, Repr

/-- Any sequence of `DrawScene` / `PresentFrame` calls. -/
def runOps (ptrBits : Nat) (res : GraphicsResources) : World → List Op → Option World
  | w, [] => some w
  | w, Op.draw g :: ops => (DrawScene ptrBits w res g).bind fun w1 => runOps ptrBits res w1 ops
  | w, Op.present e :: ops => runOps ptrBits res (PresentFrame w e) ops

/-- What `PeekMessage` yields in one iteration of the main loop: a message
(`WM_QUIT` or another one), or nothing, in which case a frame is rendered. -/
inductive Pumped
  | message (isQuit : Bool)
  | idle (e : FrameEnv)
  deriving DecidableEq, Repr

/-- How the main loop ends: left by `break`, stopped by undefined behaviour, or
still running when the pumped inputs are used up. -/
inductive Exit
  | left
  | undefined
  | running
  deriving DecidableEq, Repr

/-- The loop `while (run) { ... }` of `WinMain`, lines 343-364, entered with
`run == true`. -/
def mainLoop (ptrBits : Nat) (res : GraphicsResources) : World → List Pumped → Exit × World
  | w, [] => (Exit.running, w)
  | w, Pumped.message true :: _ => (Exit.left, w)
  | w, Pumped.message false :: rest => mainLoop ptrBits res w rest
  | w, Pumped.idle e :: rest =>
    let w := { w with calls := w.calls ++ [Call.invoke Fn.UpdateFrameTime,
      Call.invoke Fn.UpdateScene, Call.invoke Fn.DrawScene] }
    match DrawScene ptrBits w res e.gpuAtReset with
    | none => (Exit.undefined, w)
    | some w =>
      let w := { w with calls := w.calls ++ [Call.invoke Fn.PresentFrame] }
      mainLoop ptrBits res (PresentFrame w e.present) rest

/-- How `WinMain` ends. -/
inductive Outcome
  | returned (code : Int)
  | undefined
  | running
  deriving DecidableEq, Repr

/-- Inputs of `WinMain`. -/
structure MainEnv where
  window : Ptr
  setup : SetupEnv
  resources : ResourcesEnv
  pump : List Pumped
  deriving DecidableEq, Repr

/-- `WinMain`, lines 326-368. -/
def WinMain (ptrBits : Nat) (env : MainEnv) : Outcome × World :=
  let w := { World.start with calls := [Call.invoke Fn.SetupWindow] }
  if env.window = 0 then (Outcome.undefined, w)
  else
    let w := { w with calls := w.calls ++ [Call.invoke Fn.SetupGraphics] }
    match SetupGraphics ptrBits w env.window env.setup with
    | none => (Outcome.undefined, w)
    | some (false, w) => (Outcome.returned 0, w)
    | some (true, w) =>
      let w := { w with calls := w.calls ++ [Call.invoke Fn.SetupGraphicsResources] }
      match SetupGraphicsResources w GraphicsResources.zero env.resources with
      | none => (Outcome.undefined, w)
      | some (false, _, w) => (Outcome.returned 0, w)
      | some (true, res, w) =>
        match mainLoop ptrBits res w env.pump with
        | (Exit.left, w) => (Outcome.returned 0, w)
        | (Exit.undefined, w) => (Outcome.undefined, w)
        | (Exit.running, w) => (Outcome.running, w)

/-- Fence model at the allocator reset of `DrawScene`: the completed value has
not decreased and is not above the last signalled value. -/
def DrawOk (w : World) (gpuAtReset : Nat) : Prop :=
  w.fenceCompleted ≤ gpuAtReset ∧ gpuAtReset ≤ w.fenceSignalled

/-- The frame fence as a caller sees it: the last completed value observed, the
last value passed to `cmdQueue->Signal`, and the value the fence event is armed
for by `SetEventOnCompletion` (if any). -/
structure FenceView where
  completed : Nat
  signalled : Nat
  armed : Option Nat
  deriving DecidableEq, Repr

/-- Effect of one logged call on the fence, `none` when the fence cannot have
answered that way.  `Signal v` makes `v` the last signalled value.
`GetCompletedValue` returning `r` is possible when `r` is not below the last
observation and not above the last signalled value.  `SetEventOnCompletion v`
arms the event for `v`.  `WaitForSingleObject` returns only if the event is
armed, for some `v`, and the completed value has reached `v`; the completed
value only grows, so `v` is then at most `atReturn`, the completed value when
the whole call sequence has ended.  No other call touches the fence. -/
def fenceStep (atReturn : Nat) (f : FenceView) : Call → Option FenceView
  | Call.Signal v => some { f with signalled := v }
  | Call.GetCompletedValue r =>
    if f.completed ≤ r ∧ r ≤ f.signalled then some { f with completed := r } else none
  | Call.SetEventOnCompletion v => some { f with armed := some v }
  | Call.WaitForSingleObject =>
    match f.armed with
    | some v => if v ≤ atReturn then some { f with armed := none } else none
    | none => none
  | _ => some f

/-- The fence along a sequence of logged calls. -/
def fenceReplay (atReturn : Nat) : FenceView → List Call → Option FenceView
  | f, [] => some f
  | f, c :: cs =>
    match fenceStep atReturn f c with
    | some f1 => fenceReplay atReturn f1 cs
    | none => none

/-- Fence model for one call of `PresentFrame`, read off the calls it logs: the
fence can have answered every one of them, and the completed value at return,
`e.gpuReturn`, is not below the last observation and not above the last value
signalled. -/
def PresentOk (w : World) (e : PresentEnv) : Prop :=
  match fenceReplay e.gpuReturn
      { completed := w.fenceCompleted, signalled := w.fenceSignalled, armed := none }
      ((PresentFrame w e).calls.drop w.calls.length) with
  | some f => f.completed ≤ e.gpuReturn ∧ e.gpuReturn ≤ f.signalled
  | none => False

/-- Fence model along consecutive rendering iterations: `DrawOk` at every
allocator reset, `PresentOk` for every call of `PresentFrame`. -/
def FenceModel (ptrBits : Nat) (res : GraphicsResources) : World → List FrameEnv → Prop
  | _, [] => True
  | w, e :: es =>
    DrawOk w e.gpuAtReset ∧
      match DrawScene ptrBits w res e.gpuAtReset with
      | none => True
      | some w1 =>
        PresentOk w1 e.present ∧ FenceModel ptrBits res (PresentFrame w1 e.present) es

/-- Values passed to `cmdQueue->Signal`, oldest first. -/
def signalled (calls : List Call) : List Nat :=
  calls.filterMap fun c =>
    match c with
    | Call.Signal v => some v
    | _ => none

/-- Scan of the call log from the newest call backwards, looking for the last
submission of a list recorded into allocator `i`; `next` is the value of the
first `Signal` issued after the calls still to be scanned.  The result is the
value of the first `Signal` that followed that submission. -/
def fenceAfterLastSubmit (i : Nat) : List Call → Option Nat → Option Nat
  | [], _ => none
  | Call.Signal v :: older, _ => fenceAfterLastSubmit i older (some v)
  | Call.ExecuteCommandLists j _ :: older, next =>
    if j = i then next else fenceAfterLastSubmit i older next
  | _ :: older, next => fenceAfterLastSubmit i older next

/-- The fence value associated with the last submission recorded into allocator
`i`: the value signalled right after it (`none` if there is no such value). -/
def submissionFence (calls : List Call) (i : Nat) : Option Nat :=
  fenceAfterLastSubmit i calls.reverse none

/-- The handles at which `SetupGraphics` created render-target views, paired with
the resource viewed, oldest first. -/
def createdViews (calls : List Call) : List (Ptr × Nat) :=
  calls.filterMap fun c =>
    match c with
    | Call.CreateRenderTargetView r h => some (r, h)
    | _ => none

/-- The command lists submitted with `ExecuteCommandLists`, oldest first. -/
def submitted (calls : List Call) : List (List Cmd) :=
  calls.filterMap fun c =>
    match c with
    | Call.ExecuteCommandLists _ cmds => some cmds
    | _ => none


/-! ## Invariants -/

/-- State of the pacing after `k` presents under the fence model: the counter
and the last signalled value are `k`, and the fence has completed `k - 1` or `k`. -/
structure Paced (w : World) (k : Nat) : Prop where
  cpu : w.cpuCompletedFrames = k
  bound : k < U64
  sig : w.fenceSignalled = k
  upper : w.fenceCompleted ≤ k
  lower : k ≤ w.fenceCompleted + 1

/-- What the frame loop relies on after `SetupGraphics` has run on the
zero-initialised context. -/
structure Booted (w : World) : Prop where
  cpu : w.cpuCompletedFrames = 0
  completed : w.fenceCompleted = 0
  sig : w.fenceSignalled = 0
  frameIndex : w.gr.frameIndex = 0
  backBufferIndex : w.gr.backBufferIndex = 0
  allocs : w.gr.cmdAlloc.length = 2
  buffers : w.gr.swapBuffers.length = 4
  noSignal : signalled w.calls = []
  noSubmit : ∀ i next, fenceAfterLastSubmit i w.calls.reverse next = none
  noExec : ∀ i cmds, Call.ExecuteCommandLists i cmds ∉ w.calls

/-- The part of the state after `k` rendering iterations that does not depend on
the GPU: counter, frame index, signalled values, and the fence value that
followed the last submission of either allocator. -/
structure Logged (w : World) (k : Nat) : Prop where
  cpu : w.cpuCompletedFrames = k % U64
  frameIndex : w.gr.frameIndex = k % 2
  sigs : signalled w.calls = (List.range k).map fun j => (j + 1) % U64
  current : ∀ next, fenceAfterLastSubmit (k % 2) w.calls.reverse next =
    if 2 ≤ k then some ((k - 1) % U64) else none
  other : ∀ next, fenceAfterLastSubmit ((k + 1) % 2) w.calls.reverse next =
    if 1 ≤ k then some (k % U64) else none
  execs : ∀ i cmds, Call.ExecuteCommandLists i cmds ∈ w.calls → i < 2 ∧ i < k

/-- Both indices and both arrays are as `DrawScene` needs them. -/
structure InBounds (w : World) : Prop where
  frameIndex : w.gr.frameIndex = 0 ∨ w.gr.frameIndex = 1
  backBufferIndex : w.gr.backBufferIndex < 4
  allocs : w.gr.cmdAlloc.length = 2
  buffers : w.gr.swapBuffers.length = 4

/-- Whether a recorded command is a resource barrier. -/
def isBarrier : Cmd → Bool
  | Cmd.ResourceBarrier _ _ _ => true
  | _ => false

/-- Whether a recorded command is a draw. -/
def isDraw : Cmd → Bool
  | Cmd.DrawInstanced _ _ _ _ => true
  | _ => false

/-! ## Deciding the fence model, and sample inputs -/

instance DrawOk.decidable (w : World) (g : Nat) : Decidable (DrawOk w g) := by
  unfold DrawOk
  infer_instance

instance PresentOk.decidable (w : World) (e : PresentEnv) : Decidable (PresentOk w e) := by
  unfold PresentOk
  split <;> infer_instance

instance FenceModel.decidable (ptrBits : Nat) (res : GraphicsResources) :
    (w : World) → (es : List FrameEnv) → Decidable (FenceModel ptrBits res w es)
  | _, [] => isTrue trivial
  | w, e :: es =>
    match h : DrawScene ptrBits w res e.gpuAtReset with
    | none => decidable_of_iff (DrawOk w e.gpuAtReset) (by simp [FenceModel, h])
    | some w1 =>
      have := FenceModel.decidable ptrBits res (PresentFrame w1 e.present) es
      decidable_of_iff (DrawOk w e.gpuAtReset ∧ PresentOk w1 e.present ∧
        FenceModel ptrBits res (PresentFrame w1 e.present) es) (by simp [FenceModel, h])

/-- The world `SetupGraphics` leaves when run at the start of `WinMain`. -/
def afterSetup (ptrBits : Nat) (window : Ptr) (env : SetupEnv) : World :=
  match SetupGraphics ptrBits World.start window env with
  | some (_, w) => w
  | none => World.start

/-- The world after consecutive rendering iterations. -/
def afterFrames (ptrBits : Nat) (res : GraphicsResources) (w : World) (es : List FrameEnv) :
    World :=
  match runFrames ptrBits res w es with
  | some w1 => w1
  | none => w

/-- The world after one call of `DrawScene`. -/
def afterDraw (ptrBits : Nat) (res : GraphicsResources) (w : World) (g : Nat) : World :=
  match DrawScene ptrBits w res g with
  | some w1 => w1
  | none => w

/-- A bring-up that succeeds, with an RTV increment of 32 bytes. -/
def demoSetup : SetupEnv :=
  { factory := 1, device := some 2, cmdQueue := 3, swapChain := 4, cmdAlloc := [5, 6],
    descriptorSize := 32, descriptorSizeRtv := 32, swapBuffersHeap := 7,
    heapStart := 4096, buffers := [11, 12, 13, 14], frameFence := 8, frameFenceEvent := 9,
    cmdList := 10 }

/-- A bring-up that succeeds, with an RTV increment of `0x80000000`. -/
def hugeStrideSetup : SetupEnv :=
  { demoSetup with descriptorSizeRtv := 2147483648 }

/-- Pipeline state and root signature as `SetupGraphicsResources` leaves them. -/
def demoResources : GraphicsResources := { vb := [0, 0], pso := 20, rs := 21 }

/-- Two frames: the GPU retires nothing during the first; the second present
reads 0, waits for 1 and returns when the fence has reached 1. -/
def demoFrames : List FrameEnv :=
  [ { gpuAtReset := 0, present := { gpuRead := 0, gpuReturn := 0, backBuffer := 1 } },
    { gpuAtReset := 0, present := { gpuRead := 0, gpuReturn := 1, backBuffer := 2 } } ]

/-- Three frames, the third of which waits for 2. -/
def demoFrames3 : List FrameEnv :=
  demoFrames ++
    [ { gpuAtReset := 1, present := { gpuRead := 1, gpuReturn := 2, backBuffer := 3 } } ]

/-- Four frames on a GPU that keeps up: no present waits. -/
def eagerFrames : List FrameEnv :=
  [ { gpuAtReset := 0, present := { gpuRead := 1, gpuReturn := 1, backBuffer := 1 } },
    { gpuAtReset := 1, present := { gpuRead := 2, gpuReturn := 2, backBuffer := 2 } },
    { gpuAtReset := 2, present := { gpuRead := 2, gpuReturn := 3, backBuffer := 3 } },
    { gpuAtReset := 3, present := { gpuRead := 3, gpuReturn := 4, backBuffer := 0 } } ]

/-- A sequence of calls that is not the alternation of the main loop. -/
def demoOps : List Op :=
  [ Op.draw 0, Op.present { gpuRead := 0, gpuReturn := 0, backBuffer := 3 },
    Op.present { gpuRead := 0, gpuReturn := 1, backBuffer := 1 }, Op.draw 1, Op.draw 1 ]

/-- Inputs of `WinMain` on a machine without a capable adapter. -/
def noDeviceEnv : MainEnv :=
  { window := 99, setup := { demoSetup with device := none },
    resources := { shadersLoaded := true, pso := 20, rs := 21 },
    pump := [Pumped.idle { gpuAtReset := 0, present := { gpuRead := 0, gpuReturn := 0, backBuffer := 1 } }] }

/-- Inputs of `WinMain` for a run of one message, two frames and `WM_QUIT`. -/
def quitEnv : MainEnv :=
  { window := 99, setup := demoSetup,
    resources := { shadersLoaded := true, pso := 20, rs := 21 },
    pump := [Pumped.message false,
      Pumped.idle { gpuAtReset := 0, present := { gpuRead := 0, gpuReturn := 0, backBuffer := 1 } },
      Pumped.idle { gpuAtReset := 0, present := { gpuRead := 0, gpuReturn := 1, backBuffer := 2 } },
      Pumped.message true, Pumped.message false] }

/-! ## Shape of one step -/

theorem DrawScene_some {ptrBits : Nat} {w w1 : World} {res : GraphicsResources} {g : Nat}
    (h : DrawScene ptrBits w res g = some w1) :
    ∃ pResource, w.gr.swapBuffers[w.gr.backBufferIndex]? = some pResource ∧
      w.gr.frameIndex < w.gr.cmdAlloc.length ∧
      w1 = { w with
        fenceCompleted := g
        calls := w.calls ++ [Call.AllocatorReset w.gr.frameIndex, Call.ListReset w.gr.frameIndex,
          Call.ExecuteCommandLists w.gr.frameIndex
            (recorded pResource (rtvHandle ptrBits w.gr) res)] } := by
  unfold DrawScene at h
  cases ha : w.gr.cmdAlloc[w.gr.frameIndex]? with
  | none => simp [ha] at h
  | some a =>
    cases hb : w.gr.swapBuffers[w.gr.backBufferIndex]? with
    | none => simp [ha, hb] at h
    | some r =>
      simp [ha, hb] at h
      refine ⟨r, rfl, ?_, h.symm⟩
      by_contra hlt
      rw [List.getElem?_eq_none (Nat.le_of_not_lt hlt)] at ha
      cases ha

theorem DrawScene_isSome (ptrBits : Nat) (w : World) (res : GraphicsResources) (g : Nat)
    (hf : w.gr.frameIndex < w.gr.cmdAlloc.length)
    (hb : w.gr.backBufferIndex < w.gr.swapBuffers.length) :
    ∃ w1, DrawScene ptrBits w res g = some w1 := by
  unfold DrawScene
  simp [List.getElem?_eq_getElem hf, List.getElem?_eq_getElem hb]

/-! ## The pacing invariant -/

theorem paced_draw {ptrBits : Nat} {w w1 : World} {res : GraphicsResources} {g k : Nat}
    (hp : Paced w k) (hd : DrawOk w g) (h : DrawScene ptrBits w res g = some w1) :
    Paced w1 k ∧ w1.fenceCompleted = g := by
  obtain ⟨r, -, -, rfl⟩ := DrawScene_some h
  obtain ⟨h1, h2⟩ := hd
  have := hp.sig
  have := hp.lower
  exact ⟨⟨hp.cpu, hp.bound, hp.sig, by simpa using by omega, by simpa using by omega⟩, rfl⟩

theorem PresentFrame_calls_drop (w : World) (e : PresentEnv) :
    (PresentFrame w e).calls.drop w.calls.length =
      [Call.Present, Call.Signal ((w.cpuCompletedFrames + 1) % U64),
          Call.GetCompletedValue e.gpuRead]
        ++ (if 2 ≤ sub64 ((w.cpuCompletedFrames + 1) % U64) e.gpuRead then
              [Call.SetEventOnCompletion ((e.gpuRead + 1) % U64), Call.WaitForSingleObject]
            else [])
        ++ [Call.GetCurrentBackBufferIndex e.backBuffer] := by
  simp only [PresentFrame, List.append_assoc]
  exact List.drop_left _ _

theorem presentOk_iff (w : World) (e : PresentEnv) :
    PresentOk w e ↔
      w.fenceCompleted ≤ e.gpuRead ∧ e.gpuRead ≤ e.gpuReturn ∧
        e.gpuReturn ≤ (w.cpuCompletedFrames + 1) % U64 ∧
        (2 ≤ sub64 ((w.cpuCompletedFrames + 1) % U64) e.gpuRead →
          (e.gpuRead + 1) % U64 ≤ e.gpuReturn) := by
  unfold PresentOk
  rw [PresentFrame_calls_drop]
  by_cases hw : 2 ≤ sub64 ((w.cpuCompletedFrames + 1) % U64) e.gpuRead
  · by_cases hr : w.fenceCompleted ≤ e.gpuRead ∧ e.gpuRead ≤ (w.cpuCompletedFrames + 1) % U64
    · by_cases ht : (e.gpuRead + 1) % U64 ≤ e.gpuReturn
      · simp [fenceReplay, fenceStep, hw, hr, ht]
      · simp [fenceReplay, fenceStep, hw, hr, ht]
    · simp [fenceReplay, fenceStep, hw, hr]
      omega
  · by_cases hr : w.fenceCompleted ≤ e.gpuRead ∧ e.gpuRead ≤ (w.cpuCompletedFrames + 1) % U64
    · simp [fenceReplay, fenceStep, hw, hr]
    · simp [fenceReplay, fenceStep, hw, hr]
      omega

theorem paced_present {w : World} {e : PresentEnv} {k : Nat}
    (hp : Paced w k) (he : PresentOk w e) : Paced (PresentFrame w e) (k + 1) := by
  obtain ⟨hcpu, hb, -, hu, hl⟩ := hp
  obtain ⟨h1, h2, h3, h4⟩ := (presentOk_iff w e).mp he
  simp only [sub64, U64, hcpu] at h3 h4 hb
  have hk : k + 1 < 2 ^ 64 := by omega
  have hmod : (k + 1) % 2 ^ 64 = k + 1 := Nat.mod_eq_of_lt hk
  rw [hmod] at h3 h4
  have hlow : k + 1 ≤ e.gpuReturn + 1 := by
    by_cases hg : e.gpuRead = w.fenceCompleted ∧ w.fenceCompleted + 1 = k
    · have h5 := h4 (by omega)
      omega
    · omega
  refine ⟨?_, hk, ?_, ?_, ?_⟩
  · show (w.cpuCompletedFrames + 1) % U64 = k + 1
    rw [hcpu]
    exact hmod
  · show (w.cpuCompletedFrames + 1) % U64 = k + 1
    rw [hcpu]
    exact hmod
  · simpa [PresentFrame] using h3
  · simpa [PresentFrame] using hlow

theorem paced_run {ptrBits : Nat} {res : GraphicsResources} :
    ∀ (es : List FrameEnv) {w w1 : World} {k : Nat}, Paced w k →
      FenceModel ptrBits res w es → runFrames ptrBits res w es = some w1 →
      Paced w1 (k + es.length)
  | [], w, w1, k, hp, _, h => by
    simp [runFrames] at h
    subst h
    simpa using hp
  | e :: es, w, w1, k, hp, hm, h => by
    simp only [runFrames, frame] at h
    obtain ⟨hd, hrest⟩ := hm
    cases hds : DrawScene ptrBits w res e.gpuAtReset with
    | none => simp [hds] at h
    | some w2 =>
      simp only [hds, Option.map_some', Option.some_bind] at h
      simp only [hds] at hrest
      have hp2 := (paced_draw hp hd hds).1
      have hp3 := paced_present hp2 hrest.1
      have := paced_run es hp3 hrest.2 h
      simpa [Nat.add_assoc, Nat.add_comm 1] using this

/-! ## The state after bring-up -/

theorem SetupGraphics_booted {ptrBits : Nat} {window : Ptr} {env : SetupEnv} {ok : Bool}
    {w : World} (h : SetupGraphics ptrBits World.start window env = some (ok, w)) :
    Booted w := by
  unfold SetupGraphics at h
  simp only [World.start, GraphicsContext.zero, ne_eq, not_true_eq_false, if_false] at h
  split at h
  · cases h
  · cases hd : env.device with
    | none =>
      simp only [hd, Option.some.injEq, Prod.mk.injEq] at h
      obtain ⟨-, rfl⟩ := h
      constructor <;> simp [signalled, fenceAfterLastSubmit]
    | some d =>
      simp only [hd] at h
      split at h
      · cases h
      · simp only [Option.some.injEq, Prod.mk.injEq] at h
        obtain ⟨-, rfl⟩ := h
        constructor <;>
          simp [signalled, fenceAfterLastSubmit, createAllocator, createView]

/-! ## What the call log holds after `k` frames -/

theorem booted_logged {w : World} (hb : Booted w) : Logged w 0 := by
  refine ⟨by simp [hb.cpu], by simp [hb.frameIndex], by simp [hb.noSignal], ?_, ?_, ?_⟩
  · intro next
    simp [hb.noSubmit]
  · intro next
    simp [hb.noSubmit]
  · intro i cmds h
    exact absurd h (hb.noExec i cmds)

theorem logged_frame {ptrBits : Nat} {res : GraphicsResources} {w w1 : World} {e : FrameEnv}
    {k : Nat} (hl : Logged w k) (h : frame ptrBits res w e = some w1) : Logged w1 (k + 1) := by
  unfold NBody.frame at h
  cases hds : DrawScene ptrBits w res e.gpuAtReset with
  | none => simp [hds] at h
  | some w2 =>
    simp only [hds, Option.map_some', Option.some.injEq] at h
    obtain ⟨r, -, -, rfl⟩ := DrawScene_some hds
    subst h
    obtain ⟨hcpu, hfi, hsig, hcur, hoth, hex⟩ := hl
    have hne : k % 2 ≠ (k + 1) % 2 := by omega
    have hsame : (k + 1 + 1) % 2 = k % 2 := by omega
    have hc : (k % U64 + 1) % U64 = (k + 1) % U64 := by simp [U64, Nat.add_mod]
    refine ⟨?_, ?_, ?_, ?_, ?_, ?_⟩
    · show (w.cpuCompletedFrames + 1) % U64 = (k + 1) % U64
      rw [hcpu, hc]
    · show (if w.gr.frameIndex = 0 then 1 else 0) = (k + 1) % 2
      rw [hfi]
      split <;> omega
    · simp only [PresentFrame, hcpu, hc]
      split <;>
        simp [signalled, List.filterMap_append, List.range_succ] <;>
        exact hsig
    · intro next
      simp only [PresentFrame, hfi]
      split <;> simp [fenceAfterLastSubmit, hne, hoth]
    · intro next
      simp only [PresentFrame, hfi, hcpu, hc, hsame]
      split <;> simp [fenceAfterLastSubmit]
    · intro i cmds hmem
      simp only [PresentFrame, hfi] at hmem
      have : Call.ExecuteCommandLists i cmds ∈ w.calls ∨ i = k % 2 := by
        split at hmem <;> simp at hmem <;> tauto
      rcases this with h1 | h1
      · have := hex i cmds h1
        omega
      · omega

theorem logged_run {ptrBits : Nat} {res : GraphicsResources} :
    ∀ (es : List FrameEnv) {w w1 : World} {k : Nat}, Logged w k →
      runFrames ptrBits res w es = some w1 → Logged w1 (k + es.length)
  | [], w, w1, k, hl, h => by
    simp [runFrames] at h
    subst h
    simpa using hl
  | e :: es, w, w1, k, hl, h => by
    simp only [runFrames] at h
    cases hf : NBody.frame ptrBits res w e with
    | none => simp [hf] at h
    | some w2 =>
      simp only [hf, Option.some_bind] at h
      have := logged_run es (logged_frame hl hf) h
      simpa [Nat.add_assoc, Nat.add_comm 1] using this

theorem booted_paced {w : World} (hb : Booted w) : Paced w 0 :=
  ⟨hb.cpu, by simp [U64], hb.sig, by simp [hb.completed], by simp⟩

theorem runFrames_snoc (ptrBits : Nat) (res : GraphicsResources) (e : FrameEnv) :
    ∀ (es : List FrameEnv) (w w2 : World),
      runFrames ptrBits res w (es ++ [e]) = some w2 →
      FenceModel ptrBits res w (es ++ [e]) →
      ∃ w3 w1, runFrames ptrBits res w es = some w3 ∧ FenceModel ptrBits res w es ∧
        DrawOk w3 e.gpuAtReset ∧ DrawScene ptrBits w3 res e.gpuAtReset = some w1 ∧
        PresentOk w1 e.present ∧ w2 = PresentFrame w1 e.present
  | [], w, w2, hrun, hm => by
    simp only [List.nil_append, runFrames, NBody.frame] at hrun
    simp only [List.nil_append, FenceModel] at hm
    cases hds : DrawScene ptrBits w res e.gpuAtReset with
    | none => simp [hds] at hrun
    | some w1 =>
      simp only [hds, Option.map_some', Option.some_bind, Option.some.injEq] at hrun
      simp only [hds] at hm
      exact ⟨w, w1, rfl, trivial, hm.1, hds, hm.2.1, hrun.symm⟩
  | e0 :: es, w, w2, hrun, hm => by
    simp only [List.cons_append, runFrames, NBody.frame] at hrun
    simp only [List.cons_append, FenceModel] at hm
    cases hds : DrawScene ptrBits w res e0.gpuAtReset with
    | none => simp [hds] at hrun
    | some w1 =>
      simp only [hds, Option.map_some', Option.some_bind] at hrun
      simp only [hds] at hm
      obtain ⟨w3, w4, h1, h2, h3, h4, h5, h6⟩ :=
        runFrames_snoc ptrBits res e es (PresentFrame w1 e0.present) w2 hrun hm.2.2
      refine ⟨w3, w4, ?_, ?_, h3, h4, h5, h6⟩
      · simp only [runFrames, NBody.frame, hds, Option.map_some', Option.some_bind]
        exact h1
      · simp only [FenceModel, hds]
        exact ⟨hm.1, hm.2.1, h2⟩

/-! ## Claims on the pacing -/

/-- C1: after bring-up from the zero-initialised context, run `n - 1` rendering
iterations (`DrawScene; PresentFrame`) under the fence model and let frame `n`
call `DrawScene`, which resets `cmdAlloc[frameIndex]` while the fence's
completed value is `g`.  If `n ≥ 3` (that is `2 ≤ es.length`), the last
submission recorded into that allocator was followed by the signal of `n - 2`,
and `g ≥ n - 2`.  If `n` is 1 or 2, no list recorded into that allocator was
ever submitted. -/
theorem allocator_reset_after_prior_frame_retired {ptrBits : Nat} {window : Ptr}
    {senv : SetupEnv} {ok : Bool} {res : GraphicsResources} {w0 w w1 : World}
    (es : List FrameEnv) (g : Nat)
    (hboot : SetupGraphics ptrBits World.start window senv = some (ok, w0))
    (hmodel : FenceModel ptrBits res w0 es)
    (hrun : runFrames ptrBits res w0 es = some w)
    (hg : DrawOk w g)
    (hdraw : DrawScene ptrBits w res g = some w1) :
    (∃ cmds, w1.calls = w.calls ++ [Call.AllocatorReset w.gr.frameIndex,
        Call.ListReset w.gr.frameIndex, Call.ExecuteCommandLists w.gr.frameIndex cmds]) ∧
      w1.fenceCompleted = g ∧
      (2 ≤ es.length →
        submissionFence w.calls w.gr.frameIndex = some (es.length - 1) ∧ es.length - 1 ≤ g) ∧
      (es.length < 2 → ∀ cmds, Call.ExecuteCommandLists w.gr.frameIndex cmds ∉ w.calls) := by
  have hb := SetupGraphics_booted hboot
  have hl := logged_run es (booted_logged hb) hrun
  simp only [Nat.zero_add] at hl
  obtain ⟨r, -, -, rfl⟩ := DrawScene_some hdraw
  refine ⟨⟨_, rfl⟩, rfl, ?_, ?_⟩
  · intro h2
    -- the last of the `n - 1` iterations: `es = es1 ++ [e]`
    rcases List.eq_nil_or_concat es with hnil | ⟨es1, e, hes⟩
    · rw [hnil] at h2
      simp at h2
    rw [List.concat_eq_append] at hes
    subst hes
    obtain ⟨w3, w4, hrun1, hmodel1, hd1, hds1, he, rfl⟩ :=
      runFrames_snoc ptrBits res e es1 w0 w hrun hmodel
    have hp := paced_run es1 (booted_paced hb) hmodel1 hrun1
    simp only [Nat.zero_add] at hp
    obtain ⟨hp1, -⟩ := paced_draw hp hd1 hds1
    have hcpu := hp1.cpu
    have hlo := hp1.lower
    have hbd := hp1.bound
    -- what the fence model says about the calls this `PresentFrame` logged
    have key : es1.length ≤ e.present.gpuReturn := by
      unfold PresentOk at he
      simp only [PresentFrame, List.append_assoc, List.drop_left, hcpu] at he
      by_cases hr : w4.fenceCompleted ≤ e.present.gpuRead ∧
          e.present.gpuRead ≤ (es1.length + 1) % U64
      · by_cases hc : 2 ≤ sub64 ((es1.length + 1) % U64) e.present.gpuRead
        · by_cases ht : (e.present.gpuRead + 1) % U64 ≤ e.present.gpuReturn
          · simp only [if_pos hc, List.cons_append, List.nil_append, fenceReplay, fenceStep,
              if_pos hr, if_pos ht] at he
            simp only [sub64, U64] at hc hr ht he hbd
            omega
          · simp only [if_pos hc, List.cons_append, List.nil_append, fenceReplay, fenceStep,
              if_pos hr, if_neg ht] at he
        · simp only [if_neg hc, List.cons_append, List.nil_append, fenceReplay, fenceStep,
            if_pos hr] at he
          simp only [sub64, U64] at hc hr he hbd
          omega
      · by_cases hc : 2 ≤ sub64 ((es1.length + 1) % U64) e.present.gpuRead
        · simp only [if_pos hc, List.cons_append, List.nil_append, fenceReplay, fenceStep,
            if_neg hr] at he
        · simp only [if_neg hc, List.cons_append, List.nil_append, fenceReplay, fenceStep,
            if_neg hr] at he
    have hlen : (es1 ++ [e]).length = es1.length + 1 := by simp
    have hlt : (es1 ++ [e]).length - 1 < U64 := by
      rw [hlen]
      simp only [U64] at hbd ⊢
      omega
    refine ⟨?_, ?_⟩
    · unfold submissionFence
      rw [hl.frameIndex, hl.current none, if_pos h2, Nat.mod_eq_of_lt hlt]
    · have hg1 : (PresentFrame w4 e.present).fenceCompleted ≤ g := hg.1
      have hfc : (PresentFrame w4 e.present).fenceCompleted = e.present.gpuReturn := rfl
      rw [hlen]
      omega
  · intro h2 cmds hmem
    have := hl.execs _ cmds hmem
    rw [hl.frameIndex] at this
    have : es.length % 2 < es.length := this.2
    interval_cases h : es.length <;> simp at this

/-- C2: after bring-up and `n - 1` rendering iterations under the fence model
(`n - 1 = es.length`, so `n ≥ 1`), immediately after the `n`-th call to
`PresentFrame` returns, `cpuCompletedFrames` is `n`, the fence's completed value
is at most `cpuCompletedFrames`, and `cpuCompletedFrames` minus it is at most 2.
The value the call read is at most `cpuCompletedFrames`, and whenever
`cpuCompletedFrames` minus that value is 2 or more, the call blocks: after the
present, the signal and the read it arms the event for the value read plus 1
and waits on it. -/
theorem cpu_ahead_at_most_two {ptrBits : Nat} {window : Ptr} {senv : SetupEnv} {ok : Bool}
    {res : GraphicsResources} {w0 w w1 : World} (es : List FrameEnv) (g : Nat) (e : PresentEnv)
    (hboot : SetupGraphics ptrBits World.start window senv = some (ok, w0))
    (hmodel : FenceModel ptrBits res w0 es)
    (hrun : runFrames ptrBits res w0 es = some w)
    (hg : DrawOk w g)
    (hdraw : DrawScene ptrBits w res g = some w1)
    (he : PresentOk w1 e) :
    (PresentFrame w1 e).cpuCompletedFrames = es.length + 1 ∧
      (PresentFrame w1 e).fenceCompleted ≤ (PresentFrame w1 e).cpuCompletedFrames ∧
      (PresentFrame w1 e).cpuCompletedFrames - (PresentFrame w1 e).fenceCompleted ≤ 2 ∧
      e.gpuRead ≤ (PresentFrame w1 e).cpuCompletedFrames ∧
      (2 ≤ (PresentFrame w1 e).cpuCompletedFrames - e.gpuRead →
        (PresentFrame w1 e).calls.drop w1.calls.length =
          [Call.Present, Call.Signal (PresentFrame w1 e).cpuCompletedFrames,
            Call.GetCompletedValue e.gpuRead, Call.SetEventOnCompletion (e.gpuRead + 1),
            Call.WaitForSingleObject, Call.GetCurrentBackBufferIndex e.backBuffer]) := by
  have hp := paced_run es (booted_paced (SetupGraphics_booted hboot)) hmodel hrun
  simp only [Nat.zero_add] at hp
  obtain ⟨hp1, -⟩ := paced_draw hp hg hdraw
  have hcpu := hp1.cpu
  have hlo := hp1.lower
  have hup := hp1.upper
  have hbd := hp1.bound
  have hfc : (PresentFrame w1 e).fenceCompleted = e.gpuReturn := rfl
  have hc1 : (PresentFrame w1 e).cpuCompletedFrames = (es.length + 1) % U64 := by
    show (w1.cpuCompletedFrames + 1) % U64 = _
    rw [hcpu]
  -- what the fence model says about the calls this `PresentFrame` logged
  have key : w1.fenceCompleted ≤ e.gpuRead ∧ e.gpuRead ≤ e.gpuReturn ∧
      e.gpuReturn ≤ (es.length + 1) % U64 := by
    unfold PresentOk at he
    simp only [PresentFrame, List.append_assoc, List.drop_left, hcpu] at he
    by_cases hr : w1.fenceCompleted ≤ e.gpuRead ∧ e.gpuRead ≤ (es.length + 1) % U64
    · by_cases hc : 2 ≤ sub64 ((es.length + 1) % U64) e.gpuRead
      · by_cases ht : (e.gpuRead + 1) % U64 ≤ e.gpuReturn
        · simp only [if_pos hc, List.cons_append, List.nil_append, fenceReplay, fenceStep,
            if_pos hr, if_pos ht] at he
          exact ⟨hr.1, he.1, he.2⟩
        · simp only [if_pos hc, List.cons_append, List.nil_append, fenceReplay, fenceStep,
            if_pos hr, if_neg ht] at he
      · simp only [if_neg hc, List.cons_append, List.nil_append, fenceReplay, fenceStep,
          if_pos hr] at he
        exact ⟨hr.1, he.1, he.2⟩
    · by_cases hc : 2 ≤ sub64 ((es.length + 1) % U64) e.gpuRead
      · simp only [if_pos hc, List.cons_append, List.nil_append, fenceReplay, fenceStep,
          if_neg hr] at he
      · simp only [if_neg hc, List.cons_append, List.nil_append, fenceReplay, fenceStep,
          if_neg hr] at he
  obtain ⟨k1, k2, k3⟩ := key
  have hk : es.length + 1 < 2 ^ 64 := by
    simp only [U64] at hbd k3
    omega
  have hmod : (es.length + 1) % U64 = es.length + 1 := Nat.mod_eq_of_lt hk
  rw [hmod] at hc1 k3
  rw [hc1, hfc]
  refine ⟨rfl, k3, by omega, by omega, ?_⟩
  intro hw
  have hcond : 2 ≤ sub64 (es.length + 1) e.gpuRead := by
    simp only [sub64, U64]
    omega
  have htarget : (e.gpuRead + 1) % U64 = e.gpuRead + 1 := by
    simp only [U64]
    omega
  simp only [PresentFrame, List.append_assoc, List.drop_left, hcpu, hmod, if_pos hcond,
    htarget, List.cons_append, List.nil_append]

/-- C9: after bring-up and `n - 1` rendering iterations under the fence model
(`n - 1 = es.length`), the `n`-th call to `PresentFrame` returns with
`cpuCompletedFrames` minus the fence's completed value at most 1.  If the call
took the waiting branch, the value it read was `n - 2`, the only value it
waited for was `n - 1`, one below the value it had just signalled, and it called
`WaitForSingleObject`. -/
theorem cpu_ahead_at_most_one {ptrBits : Nat} {window : Ptr} {senv : SetupEnv} {ok : Bool}
    {res : GraphicsResources} {w0 w w1 : World} (es : List FrameEnv) (g : Nat) (e : PresentEnv)
    (hboot : SetupGraphics ptrBits World.start window senv = some (ok, w0))
    (hmodel : FenceModel ptrBits res w0 es)
    (hrun : runFrames ptrBits res w0 es = some w)
    (hg : DrawOk w g)
    (hdraw : DrawScene ptrBits w res g = some w1)
    (he : PresentOk w1 e) :
    (PresentFrame w1 e).cpuCompletedFrames = es.length + 1 ∧
      (PresentFrame w1 e).fenceCompleted ≤ (PresentFrame w1 e).cpuCompletedFrames ∧
      (PresentFrame w1 e).cpuCompletedFrames - (PresentFrame w1 e).fenceCompleted ≤ 1 ∧
      (2 ≤ sub64 (PresentFrame w1 e).cpuCompletedFrames e.gpuRead →
        e.gpuRead + 2 = es.length + 1 ∧
        Call.SetEventOnCompletion (e.gpuRead + 1) ∈ (PresentFrame w1 e).calls ∧
        es.length ≤ (PresentFrame w1 e).fenceCompleted ∧
        Call.WaitForSingleObject ∈ (PresentFrame w1 e).calls.drop w1.calls.length) := by
  have hp := paced_run es (booted_paced (SetupGraphics_booted hboot)) hmodel hrun
  simp only [Nat.zero_add] at hp
  obtain ⟨hp1, hg1⟩ := paced_draw hp hg hdraw
  have hp2 := paced_present hp1 he
  have he := (presentOk_iff w1 e).mp he
  have hu := hp2.upper
  have hl := hp2.lower
  have hb := hp2.bound
  have hr := he.1
  have hlo := hp1.lower
  rw [hp2.cpu]
  refine ⟨rfl, by omega, by omega, ?_⟩
  intro hw
  have hfc : (PresentFrame w1 e).fenceCompleted = e.gpuReturn := rfl
  have hread : e.gpuRead ≤ es.length + 1 := by
    have := he.2.1
    omega
  simp only [sub64, U64] at hw hb
  have hgr : e.gpuRead + 2 = es.length + 1 := by omega
  have hcond : 2 ≤ sub64 ((w1.cpuCompletedFrames + 1) % U64) e.gpuRead := by
    have hc := hp2.cpu
    change (w1.cpuCompletedFrames + 1) % U64 = es.length + 1 at hc
    rw [hc]
    simp only [sub64, U64]
    exact hw
  have htarget : (e.gpuRead + 1) % U64 = e.gpuRead + 1 := by
    simp only [U64]
    omega
  refine ⟨hgr, ?_, by omega, ?_⟩
  · simp only [PresentFrame, if_pos hcond, htarget]
    simp
  · simp only [PresentFrame, List.append_assoc, List.drop_left, if_pos hcond]
    simp

/-- C3: after bring-up, for every `k` below `2^64`, the values passed to
`cmdQueue->Signal` by the first `k` calls to `PresentFrame` are `1, 2, ..., k`
in this order, and `cpuCompletedFrames` is `k`. -/
theorem signalled_values_contiguous {ptrBits : Nat} {window : Ptr} {senv : SetupEnv} {ok : Bool}
    {res : GraphicsResources} {w0 w : World} (es : List FrameEnv)
    (hboot : SetupGraphics ptrBits World.start window senv = some (ok, w0))
    (hrun : runFrames ptrBits res w0 es = some w)
    (hk : es.length < U64) :
    signalled w.calls = List.range' 1 es.length ∧ w.cpuCompletedFrames = es.length := by
  have hl := logged_run es (booted_logged (SetupGraphics_booted hboot)) hrun
  simp only [Nat.zero_add] at hl
  refine ⟨?_, by rw [hl.cpu, Nat.mod_eq_of_lt hk]⟩
  rw [hl.sigs, List.range'_eq_map_range]
  apply List.map_congr_left
  intro j hj
  have hj2 : j < es.length := List.mem_range.mp hj
  rw [Nat.mod_eq_of_lt (by omega), Nat.add_comm]

theorem mem_signalled {calls : List Call} {v : Nat} :
    v ∈ signalled calls ↔ Call.Signal v ∈ calls := by
  unfold signalled
  rw [List.mem_filterMap]
  constructor
  · rintro ⟨c, hc, h⟩
    cases c <;> simp at h
    subst h
    exact hc
  · intro h
    exact ⟨_, h, rfl⟩

theorem sub64_eq_int (a b : Nat) :
    ((sub64 a b : Nat) : Int) = ((a : Int) - (b : Int)) % (2 ^ 64 : Int) := by
  unfold sub64 U64
  omega

/-- C10: after bring-up and any number of rendering iterations, let
`PresentFrame` read a fence value that is at most the value it has just
signalled.  The branch condition is the unsigned 64-bit difference
`cpuCompletedFrames - gpuCompletedFrames (mod 2^64) ≥ 2`; `SetEventOnCompletion`
and the wait are issued exactly when it holds, and then the value waited for,
`gpuCompletedFrames + 1`, does not wrap, is strictly below the value just
signalled, and was signalled by an earlier call of `PresentFrame`. -/
theorem wait_targets_signalled_value {ptrBits : Nat} {window : Ptr} {senv : SetupEnv}
    {ok : Bool} {res : GraphicsResources} {w0 w w1 : World} (es : List FrameEnv) (g : Nat)
    (e : PresentEnv)
    (hboot : SetupGraphics ptrBits World.start window senv = some (ok, w0))
    (hrun : runFrames ptrBits res w0 es = some w)
    (hdraw : DrawScene ptrBits w res g = some w1)
    (hread : e.gpuRead ≤ (PresentFrame w1 e).cpuCompletedFrames) :
    (PresentFrame w1 e).fenceSignalled = (PresentFrame w1 e).cpuCompletedFrames ∧
      ((sub64 (PresentFrame w1 e).cpuCompletedFrames e.gpuRead : Nat) : Int) =
        (((PresentFrame w1 e).cpuCompletedFrames : Int) - (e.gpuRead : Int)) % (2 ^ 64 : Int) ∧
      (PresentFrame w1 e).calls =
        w1.calls ++ [Call.Present, Call.Signal (PresentFrame w1 e).cpuCompletedFrames,
            Call.GetCompletedValue e.gpuRead]
          ++ (if 2 ≤ sub64 (PresentFrame w1 e).cpuCompletedFrames e.gpuRead then
                [Call.SetEventOnCompletion ((e.gpuRead + 1) % U64), Call.WaitForSingleObject]
              else [])
          ++ [Call.GetCurrentBackBufferIndex e.backBuffer] ∧
      (2 ≤ sub64 (PresentFrame w1 e).cpuCompletedFrames e.gpuRead →
        (e.gpuRead + 1) % U64 = e.gpuRead + 1 ∧
        e.gpuRead + 1 < (PresentFrame w1 e).cpuCompletedFrames ∧
        Call.Signal (e.gpuRead + 1) ∈ w1.calls) := by
  have hl := logged_run es (booted_logged (SetupGraphics_booted hboot)) hrun
  simp only [Nat.zero_add] at hl
  obtain ⟨r, -, -, rfl⟩ := DrawScene_some hdraw
  refine ⟨rfl, sub64_eq_int _ _, rfl, ?_⟩
  have hcpu : (PresentFrame { w with fenceCompleted := g, calls := w.calls ++
      [Call.AllocatorReset w.gr.frameIndex, Call.ListReset w.gr.frameIndex,
        Call.ExecuteCommandLists w.gr.frameIndex (recorded r (rtvHandle ptrBits w.gr) res)] }
      e).cpuCompletedFrames = (es.length % U64 + 1) % U64 := by
    show (w.cpuCompletedFrames + 1) % U64 = _
    rw [hl.cpu]
  rw [hcpu] at hread ⊢
  intro hw
  simp only [sub64, U64] at hw hread ⊢
  have h1 : (e.gpuRead + 1) % 2 ^ 64 = e.gpuRead + 1 := by omega
  have h2 : e.gpuRead + 1 < (es.length % 2 ^ 64 + 1) % 2 ^ 64 := by omega
  refine ⟨h1, h2, ?_⟩
  have hmem : e.gpuRead + 1 ∈ signalled w.calls := by
    rw [hl.sigs, List.mem_map]
    refine ⟨e.gpuRead, List.mem_range.mpr (by omega), ?_⟩
    simpa [U64] using h1
  simp only [List.mem_append]
  exact Or.inl (mem_signalled.mp hmem)

/-! ## Claims on the two indices -/

theorem presents_frameIndex :
    ∀ (es : List PresentEnv) (w : World), (w.gr.frameIndex = 0 ∨ w.gr.frameIndex = 1) →
      (presents w es).gr.frameIndex =
        if es.length % 2 = 0 then w.gr.frameIndex else 1 - w.gr.frameIndex
  | [], w, _ => by simp [presents]
  | e :: es, w, h => by
    have hstep : (PresentFrame w e).gr.frameIndex = 1 - w.gr.frameIndex := by
      show (if w.gr.frameIndex = 0 then 1 else 0) = 1 - w.gr.frameIndex
      rcases h with h | h <;> simp [h]
    have ih := presents_frameIndex es (PresentFrame w e) (by omega)
    simp only [presents, List.foldl_cons, List.length_cons] at ih ⊢
    rw [ih, hstep]
    rcases Nat.mod_two_eq_zero_or_one es.length with hm | hm <;>
      rcases h with h | h <;>
      simp [hm, h, Nat.succ_mod_two_eq_zero_iff, Nat.add_mod]

/-- C7: for a context whose `frameIndex` is 0 or 1, each call of `PresentFrame`
(`frameIndex = !frameIndex`) leaves `1 - frameIndex`; after an even number of
consecutive calls `frameIndex` is what it was, after an odd number it is the
other of the two values. -/
theorem frameIndex_after_presents (w : World) (es : List PresentEnv)
    (h : w.gr.frameIndex = 0 ∨ w.gr.frameIndex = 1) :
    (∀ e, (PresentFrame w e).gr.frameIndex = 1 - w.gr.frameIndex) ∧
      (es.length % 2 = 0 → (presents w es).gr.frameIndex = w.gr.frameIndex) ∧
      (es.length % 2 = 1 → (presents w es).gr.frameIndex = 1 - w.gr.frameIndex ∧
        (presents w es).gr.frameIndex ≠ w.gr.frameIndex) := by
  refine ⟨?_, ?_, ?_⟩
  · intro e
    show (if w.gr.frameIndex = 0 then 1 else 0) = 1 - w.gr.frameIndex
    rcases h with h | h <;> simp [h]
  · intro hm
    rw [presents_frameIndex es w h, if_pos hm]
  · intro hm
    rw [presents_frameIndex es w h, if_neg (by omega)]
    exact ⟨rfl, by omega⟩

theorem inBounds_runOps (ptrBits : Nat) (res : GraphicsResources) :
    ∀ (ops : List Op) {w : World}, InBounds w →
      (∀ e, Op.present e ∈ ops → e.backBuffer < 4) →
      ∃ w1, runOps ptrBits res w ops = some w1 ∧ InBounds w1
  | [], w, hw, _ => ⟨w, rfl, hw⟩
  | Op.draw g :: ops, w, hw, hbb => by
    obtain ⟨w1, h1⟩ := DrawScene_isSome ptrBits w res g
      (show w.gr.frameIndex < w.gr.cmdAlloc.length by
        rw [hw.allocs]
        rcases hw.frameIndex with h | h <;> omega)
      (show w.gr.backBufferIndex < w.gr.swapBuffers.length by
        rw [hw.buffers]
        exact hw.backBufferIndex)
    obtain ⟨r, -, -, rfl⟩ := DrawScene_some h1
    have hw1 : InBounds { w with fenceCompleted := g, calls := w.calls ++
        [Call.AllocatorReset w.gr.frameIndex, Call.ListReset w.gr.frameIndex,
          Call.ExecuteCommandLists w.gr.frameIndex (recorded r (rtvHandle ptrBits w.gr) res)] } :=
      ⟨hw.frameIndex, hw.backBufferIndex, hw.allocs, hw.buffers⟩
    obtain ⟨w2, h2, hw2⟩ := inBounds_runOps ptrBits res ops hw1
      (fun e he => hbb e (List.mem_cons_of_mem _ he))
    exact ⟨w2, by simp only [NBody.runOps, h1, Option.some_bind]; exact h2, hw2⟩
  | Op.present e :: ops, w, hw, hbb => by
    have hw1 : InBounds (PresentFrame w e) := by
      refine ⟨?_, hbb e (List.mem_cons_self _ _), hw.allocs, hw.buffers⟩
      show (if w.gr.frameIndex = 0 then 1 else 0) = 0 ∨ (if w.gr.frameIndex = 0 then 1 else 0) = 1
      split <;> simp
    obtain ⟨w2, h2, hw2⟩ := inBounds_runOps ptrBits res ops hw1
      (fun e he => hbb e (List.mem_cons_of_mem _ he))
    exact ⟨w2, by simp only [NBody.runOps]; exact h2, hw2⟩

theorem booted_inBounds {w : World} (hb : Booted w) : InBounds w :=
  ⟨Or.inl hb.frameIndex, by simp [hb.backBufferIndex], hb.allocs, hb.buffers⟩

/-- C6: after `SetupGraphics` on the zero-initialised context, any sequence of
`DrawScene` / `PresentFrame` calls in which `GetCurrentBackBufferIndex` returns
values below 4 runs without an out-of-bounds read and ends in a state with
`frameIndex` in `{0, 1}` and `backBufferIndex < 4`, in which `cmdAlloc` has 2
and `swapBuffers` 4 entries, so that the next `DrawScene` reads in bounds. -/
theorem indices_in_bounds {ptrBits : Nat} {window : Ptr} {senv : SetupEnv} {ok : Bool}
    {w0 : World} (res : GraphicsResources) (ops : List Op)
    (hboot : SetupGraphics ptrBits World.start window senv = some (ok, w0))
    (hbb : ∀ e, Op.present e ∈ ops → e.backBuffer < 4) :
    ∃ w, runOps ptrBits res w0 ops = some w ∧
      (w.gr.frameIndex = 0 ∨ w.gr.frameIndex = 1) ∧ w.gr.backBufferIndex < 4 ∧
      w.gr.frameIndex < w.gr.cmdAlloc.length ∧
      w.gr.backBufferIndex < w.gr.swapBuffers.length ∧
      ∀ g, ∃ w1, DrawScene ptrBits w res g = some w1 := by
  obtain ⟨w, hrun, hw⟩ := inBounds_runOps ptrBits res ops
    (booted_inBounds (SetupGraphics_booted hboot)) hbb
  have h1 : w.gr.frameIndex < w.gr.cmdAlloc.length := by
    rw [hw.allocs]
    rcases hw.frameIndex with h | h <;> omega
  have h2 : w.gr.backBufferIndex < w.gr.swapBuffers.length := by
    rw [hw.buffers]
    exact hw.backBufferIndex
  exact ⟨w, hrun, hw.frameIndex, hw.backBufferIndex, h1, h2,
    fun g => DrawScene_isSome ptrBits w res g h1 h2⟩

/-! ## Claims on the recorded commands -/

/-- C4: for every context in which the two array reads of `DrawScene` are in
bounds, with `r = swapBuffers[backBufferIndex]`, the submitted command list has
exactly one draw, `DrawInstanced(3, 1, 0, 0)`, and exactly two barriers: it
splits as `pre ++ [PRESENT → RENDER_TARGET on r] ++ mid ++ [RENDER_TARGET →
PRESENT on r] ++ post` with no barrier in `pre`, `mid`, `post` and with the
render-target binding, the clear and the draw in `mid`.  `backBufferIndex` is
the value the preceding `PresentFrame` got from `GetCurrentBackBufferIndex`,
and `PresentFrame` leaves `swapBuffers` alone. -/
theorem draw_bracketed_by_transitions {ptrBits : Nat} {w : World} (res : GraphicsResources)
    (g : Nat) {r : Ptr}
    (hf : w.gr.frameIndex < w.gr.cmdAlloc.length)
    (hr : w.gr.swapBuffers[w.gr.backBufferIndex]? = some r) :
    (∃ cmds pre mid post,
      DrawScene ptrBits w res g = some { w with
        fenceCompleted := g
        calls := w.calls ++ [Call.AllocatorReset w.gr.frameIndex,
          Call.ListReset w.gr.frameIndex, Call.ExecuteCommandLists w.gr.frameIndex cmds] } ∧
      cmds.filter isDraw = [Cmd.DrawInstanced 3 1 0 0] ∧
      cmds.filter isBarrier =
        [Cmd.ResourceBarrier r ResourceState.PRESENT ResourceState.RENDER_TARGET,
         Cmd.ResourceBarrier r ResourceState.RENDER_TARGET ResourceState.PRESENT] ∧
      cmds = pre ++ Cmd.ResourceBarrier r ResourceState.PRESENT ResourceState.RENDER_TARGET
        :: mid ++ Cmd.ResourceBarrier r ResourceState.RENDER_TARGET ResourceState.PRESENT
        :: post ∧
      (∀ c, c ∈ pre ++ mid ++ post → isBarrier c = false) ∧
      Cmd.DrawInstanced 3 1 0 0 ∈ mid ∧
      Cmd.OMSetRenderTargets (rtvHandle ptrBits w.gr) ∈ mid ∧
      Cmd.ClearRenderTargetView (rtvHandle ptrBits w.gr) ∈ mid) ∧
    (∀ (w0 : World) (e : PresentEnv),
      (PresentFrame w0 e).gr.backBufferIndex = e.backBuffer ∧
      (PresentFrame w0 e).gr.swapBuffers = w0.gr.swapBuffers) := by
  refine ⟨⟨recorded r (rtvHandle ptrBits w.gr) res,
    [Cmd.RSSetViewports 1280 720, Cmd.RSSetScissorRects 1280 720],
    [Cmd.OMSetRenderTargets (rtvHandle ptrBits w.gr),
      Cmd.ClearRenderTargetView (rtvHandle ptrBits w.gr), Cmd.SetPipelineState res.pso,
      Cmd.SetGraphicsRootSignature res.rs, Cmd.IASetPrimitiveTopology,
      Cmd.DrawInstanced 3 1 0 0], [], ?_, ?_, ?_, ?_, ?_, ?_, ?_, ?_⟩, fun w0 e => ⟨rfl, rfl⟩⟩
  · unfold DrawScene
    simp [List.getElem?_eq_getElem hf, hr]
  · simp [recorded, isDraw]
  · simp [recorded, isBarrier]
  · simp [recorded]
  · intro c hc
    simp at hc
    rcases hc with h | h | h | h | h | h | h | h <;> subst h <;> rfl
  · simp
  · simp
  · simp

/-! ## Claims on bring-up failure and the exit code -/

theorem SetupGraphics_succeeds (ptrBits : Nat) {window : Ptr} {env : SetupEnv} {d : Ptr}
    (calls : List Call) (hw : window ≠ 0) (hd : env.device = some d)
    (he : env.frameFenceEvent ≠ 0) :
    ∃ w1, SetupGraphics ptrBits { World.start with calls := calls } window env = some (true, w1) ∧
      InBounds w1 := by
  unfold SetupGraphics
  simp only [World.start, GraphicsContext.zero, ne_eq, not_true_eq_false, if_false, hw, hd, he]
  refine ⟨_, rfl, ?_⟩
  constructor <;> simp [createAllocator, createView]

theorem mainLoop_left (ptrBits : Nat) (res : GraphicsResources) (post : List Pumped) :
    ∀ (pre : List Pumped) (w : World), InBounds w →
      (∀ e, Pumped.idle e ∈ pre → e.present.backBuffer < 4) →
      Pumped.message true ∉ pre →
      (mainLoop ptrBits res w (pre ++ Pumped.message true :: post)).1 = Exit.left
  | [], w, _, _, _ => by simp [mainLoop]
  | Pumped.message true :: pre, w, _, _, hq => by simp at hq
  | Pumped.message false :: pre, w, hw, hbb, hq => by
    simp only [List.cons_append, mainLoop]
    exact mainLoop_left ptrBits res post pre w hw (fun e he => hbb e (List.mem_cons_of_mem _ he))
      (fun h => hq (List.mem_cons_of_mem _ h))
  | Pumped.idle e :: pre, w, hw, hbb, hq => by
    simp only [List.cons_append, mainLoop]
    have hw1 : InBounds { w with calls := w.calls ++ [Call.invoke Fn.UpdateFrameTime,
        Call.invoke Fn.UpdateScene, Call.invoke Fn.DrawScene] } :=
      ⟨hw.frameIndex, hw.backBufferIndex, hw.allocs, hw.buffers⟩
    obtain ⟨w2, h2⟩ := DrawScene_isSome ptrBits
      { w with calls := w.calls ++ [Call.invoke Fn.UpdateFrameTime,
        Call.invoke Fn.UpdateScene, Call.invoke Fn.DrawScene] } res e.gpuAtReset
      (show w.gr.frameIndex < w.gr.cmdAlloc.length by
        rw [hw.allocs]
        rcases hw.frameIndex with h | h <;> omega)
      (show w.gr.backBufferIndex < w.gr.swapBuffers.length by
        rw [hw.buffers]
        exact hw.backBufferIndex)
    rw [h2]
    obtain ⟨r, -, -, rfl⟩ := DrawScene_some h2
    apply mainLoop_left ptrBits res post pre
    · refine ⟨?_, hbb e (List.mem_cons_self _ _), hw.allocs, hw.buffers⟩
      show (if w.gr.frameIndex = 0 then 1 else 0) = 0 ∨ (if w.gr.frameIndex = 0 then 1 else 0) = 1
      split <;> simp
    · exact fun e he => hbb e (List.mem_cons_of_mem _ he)
    · exact fun h => hq (List.mem_cons_of_mem _ h)

theorem WinMain_code_zero (ptrBits : Nat) (env : MainEnv) (code : Int)
    (h : (WinMain ptrBits env).1 = Outcome.returned code) : code = 0 := by
  unfold WinMain at h
  by_cases hw : env.window = 0
  · simp [hw] at h
  · simp only [hw, if_false] at h
    generalize SetupGraphics ptrBits _ env.window env.setup = sg at h
    rcases sg with _ | ⟨_ | _, w1⟩
    · cases h
    · simpa using h.symm
    · simp only at h
      generalize SetupGraphicsResources _ GraphicsResources.zero env.resources = sr at h
      rcases sr with _ | ⟨_ | _, res, w2⟩
      · cases h
      · simpa using h.symm
      · simp only at h
        generalize mainLoop ptrBits res w2 env.pump = ml at h
        rcases ml with ⟨_ | _ | _, w3⟩
        · simpa using h.symm
        · cases h
        · cases h

/-- C8: with the results of device creation, shader loading and the message
pump as inputs: if `D3D12CreateDevice` fails, `SetupGraphics` returns `false`
having called only `CreateDXGIFactory1` and `D3D12CreateDevice`, with queue,
swap chain, allocators, fence and command list still null, and `WinMain`
returns 0 without calling `SetupGraphicsResources`, `DrawScene` or
`PresentFrame`; whenever `WinMain` returns, it returns 0; and it does return
(0) when bring-up succeeded, `WM_QUIT` is pumped, and the frames rendered
before it got back-buffer indices below 4. -/
theorem WinMain_returns_zero (ptrBits : Nat) (env : MainEnv) (hwin : env.window ≠ 0) :
    (env.setup.device = none →
      ∃ w, SetupGraphics ptrBits
          { World.start with calls := [Call.invoke Fn.SetupWindow, Call.invoke Fn.SetupGraphics] }
          env.window env.setup = some (false, w) ∧
        w.calls = [Call.invoke Fn.SetupWindow, Call.invoke Fn.SetupGraphics,
          Call.CreateDXGIFactory1, Call.D3D12CreateDevice false] ∧
        w.gr.cmdQueue = 0 ∧ w.gr.swapChain = 0 ∧ w.gr.cmdAlloc = [0, 0] ∧
        w.gr.frameFence = 0 ∧ w.gr.cmdList = 0 ∧
        WinMain ptrBits env = (Outcome.returned 0, w) ∧
        Call.invoke Fn.SetupGraphicsResources ∉ w.calls ∧
        Call.invoke Fn.DrawScene ∉ w.calls ∧ Call.invoke Fn.PresentFrame ∉ w.calls) ∧
    (∀ code, (WinMain ptrBits env).1 = Outcome.returned code → code = 0) ∧
    (∀ pre post, env.setup.device ≠ none → env.setup.frameFenceEvent ≠ 0 →
      env.resources.shadersLoaded = true →
      env.pump = pre ++ Pumped.message true :: post →
      Pumped.message true ∉ pre →
      (∀ e, Pumped.idle e ∈ pre → e.present.backBuffer < 4) →
      (WinMain ptrBits env).1 = Outcome.returned 0) := by
  refine ⟨?_, WinMain_code_zero ptrBits env, ?_⟩
  · intro hd
    refine ⟨{ World.start with
      gr := { GraphicsContext.zero with factory := env.setup.factory }
      calls := [Call.invoke Fn.SetupWindow, Call.invoke Fn.SetupGraphics,
        Call.CreateDXGIFactory1, Call.D3D12CreateDevice false] }, ?_, ?_, ?_⟩
    · unfold SetupGraphics
      simp only [World.start, GraphicsContext.zero, ne_eq, not_true_eq_false, if_false, hwin, hd]
      rfl
    · simp
    · refine ⟨rfl, rfl, rfl, rfl, rfl, ?_, by simp, by simp, by simp⟩
      unfold WinMain SetupGraphics
      simp [World.start, GraphicsContext.zero, hwin, hd]
  · intro pre post hd he hs hp hq hbb
    obtain ⟨d, hd⟩ := Option.ne_none_iff_exists'.mp hd
    obtain ⟨w1, h1, hw1⟩ := SetupGraphics_succeeds ptrBits
      [Call.invoke Fn.SetupWindow, Call.invoke Fn.SetupGraphics] hwin hd he
    have hloop := mainLoop_left ptrBits
      { GraphicsResources.zero with pso := env.resources.pso, rs := env.resources.rs }
      post pre
      { w1 with calls := w1.calls ++ [Call.invoke Fn.SetupGraphicsResources] ++
          [Call.LoadFile, Call.LoadFile, Call.CreateGraphicsPipelineState,
            Call.CreateRootSignature] }
      ⟨hw1.frameIndex, hw1.backBufferIndex, hw1.allocs, hw1.buffers⟩ hbb hq
    unfold WinMain
    simp only [hwin, if_false, List.singleton_append, List.cons_append, List.nil_append]
    simp only [List.singleton_append, List.cons_append, List.nil_append] at h1
    rw [h1]
    simp only [SetupGraphicsResources, hs, if_true, hp]
    simp only [List.append_assoc] at hloop ⊢
    split
    · rfl
    · rename_i heq
      rw [heq] at hloop
      cases hloop
    · rename_i heq
      rw [heq] at hloop
      cases hloop

/-! ## The descriptor handle of `DrawScene` against the views of `SetupGraphics` -/

theorem SetupGraphics_views {ptrBits : Nat} {window : Ptr} {env : SetupEnv} {w : World}
    (h : SetupGraphics ptrBits World.start window env = some (true, w)) :
    w.gr.swapBuffersHeapStart = env.heapStart % 2 ^ ptrBits ∧
      w.gr.descriptorSizeRtv = env.descriptorSizeRtv % U32 ∧
      w.gr.swapBuffers =
        [env.buffers.getD 0 0, env.buffers.getD 1 0, env.buffers.getD 2 0, env.buffers.getD 3 0] ∧
      createdViews w.calls =
        [(env.buffers.getD 0 0, (env.heapStart + 0 * (env.descriptorSizeRtv % U32)) % 2 ^ ptrBits),
         (env.buffers.getD 1 0, (env.heapStart + 1 * (env.descriptorSizeRtv % U32)) % 2 ^ ptrBits),
         (env.buffers.getD 2 0, (env.heapStart + 2 * (env.descriptorSizeRtv % U32)) % 2 ^ ptrBits),
         (env.buffers.getD 3 0, (env.heapStart + 3 * (env.descriptorSizeRtv % U32)) % 2 ^ ptrBits)] := by
  unfold SetupGraphics at h
  simp only [World.start, GraphicsContext.zero, ne_eq, not_true_eq_false, if_false] at h
  split at h
  · cases h
  · cases hd : env.device with
    | none => simp [hd] at h
    | some d =>
      simp only [hd] at h
      split at h
      · cases h
      · simp only [Option.some.injEq, Prod.mk.injEq, true_and] at h
        subst h
        refine ⟨rfl, rfl, ?_, ?_⟩
        · simp [createAllocator, createView]
        · simp [createdViews, createAllocator, createView, Nat.add_assoc, ← Nat.two_mul]
          congr 1
          omega

theorem rtvHandle_eq_view_of_no_wrap {ptrBits : Nat} {window : Ptr} {env : SetupEnv}
    {w : World} (b : Nat)
    (h : SetupGraphics ptrBits World.start window env = some (true, w))
    (hb : b < 4) (hsmall : b * (env.descriptorSizeRtv % U32) < U32) :
    (createdViews w.calls)[b]? =
      some (w.gr.swapBuffers.getD b 0, rtvHandle ptrBits { w.gr with backBufferIndex := b }) := by
  obtain ⟨h1, h2, h3, h4⟩ := SetupGraphics_views h
  unfold rtvHandle
  simp only [h1, h2, h3, h4, Nat.mod_eq_of_lt hsmall, Nat.mod_add_mod]
  interval_cases b <;> simp

theorem rtvHandle_eq_view_of_narrow {ptrBits : Nat} {window : Ptr} {env : SetupEnv}
    {w : World} (b : Nat)
    (h : SetupGraphics ptrBits World.start window env = some (true, w))
    (hb : b < 4) (hp : ptrBits ≤ 32) :
    (createdViews w.calls)[b]? =
      some (w.gr.swapBuffers.getD b 0, rtvHandle ptrBits { w.gr with backBufferIndex := b }) := by
  obtain ⟨h1, h2, h3, h4⟩ := SetupGraphics_views h
  have key : ∀ x, (env.heapStart % 2 ^ ptrBits + x % U32) % 2 ^ ptrBits =
      (env.heapStart + x) % 2 ^ ptrBits := by
    intro x
    rw [Nat.add_mod, Nat.mod_mod, U32, Nat.mod_mod_of_dvd _ (pow_dvd_pow 2 hp), ← Nat.add_mod]
  unfold rtvHandle
  simp only [h1, h2, h3, h4, key]
  interval_cases b <;> simp

/-- C5 (the code at a stride that wraps): on a build with 64-bit handles, bring
up with an RTV increment of `0x80000000` and render two frames, after which the
current back buffer is 2.  `SetupGraphics` created the view of `swapBuffers[2]`
(resource 13) at `heapStart + 0x100000000`; the third `DrawScene` puts its
barriers on resource 13 but binds and clears the handle `heapStart`, at which
the view of `swapBuffers[0]` (resource 11) was created. -/
theorem rtvHandle_misses_created_view :
    SetupGraphics 64 World.start 99 hugeStrideSetup =
        some (true, afterSetup 64 99 hugeStrideSetup) ∧
      createdViews (afterSetup 64 99 hugeStrideSetup).calls =
        [(11, 4096), (12, 4096 + 2147483648), (13, 4096 + 4294967296),
          (14, 4096 + 6442450944)] ∧
      (afterFrames 64 demoResources (afterSetup 64 99 hugeStrideSetup) demoFrames).gr.backBufferIndex
        = 2 ∧
      (DrawScene 64 (afterFrames 64 demoResources (afterSetup 64 99 hugeStrideSetup) demoFrames)
          demoResources 1).map (fun w => (submitted w.calls).getLast?) =
        some (some (recorded 13 4096 demoResources)) ∧
      rtvHandle 64 (afterFrames 64 demoResources (afterSetup 64 99 hugeStrideSetup)
        demoFrames).gr = 4096 ∧
      (13, 4096) ∉ createdViews (afterSetup 64 99 hugeStrideSetup).calls := by
  refine ⟨by rfl, by decide, by decide, by decide, by decide, by decide⟩

/-! ## The claims at sample inputs -/

theorem allocator_reset_after_prior_frame_retired_witness :
    FenceModel 64 demoResources (afterSetup 64 99 demoSetup) demoFrames ∧
      submissionFence (afterFrames 64 demoResources (afterSetup 64 99 demoSetup) demoFrames).calls
          (afterFrames 64 demoResources (afterSetup 64 99 demoSetup) demoFrames).gr.frameIndex =
        some (demoFrames.length - 1) ∧
      demoFrames.length - 1 ≤ 1 :=
  ⟨by decide,
    (@allocator_reset_after_prior_frame_retired 64 99 demoSetup true demoResources
      (afterSetup 64 99 demoSetup)
      (afterFrames 64 demoResources (afterSetup 64 99 demoSetup) demoFrames)
      (afterDraw 64 demoResources
        (afterFrames 64 demoResources (afterSetup 64 99 demoSetup) demoFrames) 1)
      demoFrames 1 (by rfl) (by decide) (by rfl) (by decide) (by rfl)).2.2.1 (by decide)⟩

theorem cpu_ahead_at_most_two_witness :
    FenceModel 64 demoResources (afterSetup 64 99 demoSetup) demoFrames3 ∧
      PresentOk (afterDraw 64 demoResources
          (afterFrames 64 demoResources (afterSetup 64 99 demoSetup) demoFrames3) 2)
        { gpuRead := 2, gpuReturn := 3, backBuffer := 0 } ∧
      (PresentFrame (afterDraw 64 demoResources
          (afterFrames 64 demoResources (afterSetup 64 99 demoSetup) demoFrames3) 2)
        { gpuRead := 2, gpuReturn := 3, backBuffer := 0 }).cpuCompletedFrames -
      (PresentFrame (afterDraw 64 demoResources
          (afterFrames 64 demoResources (afterSetup 64 99 demoSetup) demoFrames3) 2)
        { gpuRead := 2, gpuReturn := 3, backBuffer := 0 }).fenceCompleted ≤ 2 :=
  ⟨by decide, by decide,
    (@cpu_ahead_at_most_two 64 99 demoSetup true demoResources (afterSetup 64 99 demoSetup)
      (afterFrames 64 demoResources (afterSetup 64 99 demoSetup) demoFrames3)
      (afterDraw 64 demoResources
        (afterFrames 64 demoResources (afterSetup 64 99 demoSetup) demoFrames3) 2)
      demoFrames3 2 { gpuRead := 2, gpuReturn := 3, backBuffer := 0 }
      (by rfl) (by decide) (by rfl) (by decide) (by rfl) (by decide)).2.2.1⟩

theorem cpu_ahead_at_most_one_witness :
    PresentOk (afterDraw 32 demoResources
        (afterFrames 32 demoResources (afterSetup 32 99 demoSetup) demoFrames) 1)
        { gpuRead := 1, gpuReturn := 2, backBuffer := 3 } ∧
      (PresentFrame (afterDraw 32 demoResources
        (afterFrames 32 demoResources (afterSetup 32 99 demoSetup) demoFrames) 1)
        { gpuRead := 1, gpuReturn := 2, backBuffer := 3 }).cpuCompletedFrames -
      (PresentFrame (afterDraw 32 demoResources
        (afterFrames 32 demoResources (afterSetup 32 99 demoSetup) demoFrames) 1)
        { gpuRead := 1, gpuReturn := 2, backBuffer := 3 }).fenceCompleted ≤ 1 :=
  ⟨by decide,
    (@cpu_ahead_at_most_one 32 99 demoSetup true demoResources (afterSetup 32 99 demoSetup)
      (afterFrames 32 demoResources (afterSetup 32 99 demoSetup) demoFrames)
      (afterDraw 32 demoResources
        (afterFrames 32 demoResources (afterSetup 32 99 demoSetup) demoFrames) 1)
      demoFrames 1 { gpuRead := 1, gpuReturn := 2, backBuffer := 3 }
      (by rfl) (by decide) (by rfl) (by decide) (by rfl) (by decide)).2.2.1⟩

theorem signalled_values_contiguous_witness :
    eagerFrames.length < U64 ∧
      signalled (afterFrames 64 demoResources (afterSetup 64 99 demoSetup) eagerFrames).calls =
        List.range' 1 eagerFrames.length :=
  ⟨by decide,
    (@signalled_values_contiguous 64 99 demoSetup true demoResources (afterSetup 64 99 demoSetup)
      (afterFrames 64 demoResources (afterSetup 64 99 demoSetup) eagerFrames) eagerFrames
      (by rfl) (by rfl) (by decide)).1⟩

theorem wait_targets_signalled_value_witness :
    2 ≤ sub64 2 0 ∧
      Call.Signal 1 ∈ (afterDraw 64 demoResources
        (afterFrames 64 demoResources (afterSetup 64 99 demoSetup) (demoFrames.take 1)) 0).calls :=
  ⟨by decide,
    ((@wait_targets_signalled_value 64 99 demoSetup true demoResources
      (afterSetup 64 99 demoSetup)
      (afterFrames 64 demoResources (afterSetup 64 99 demoSetup) (demoFrames.take 1))
      (afterDraw 64 demoResources
        (afterFrames 64 demoResources (afterSetup 64 99 demoSetup) (demoFrames.take 1)) 0)
      (demoFrames.take 1) 0 { gpuRead := 0, gpuReturn := 1, backBuffer := 2 }
      (by rfl) (by rfl) (by rfl) (by decide)).2.2.2 (by decide)).2.2⟩

theorem frameIndex_after_presents_witness :
    (presents World.start
        [{ gpuRead := 0, gpuReturn := 0, backBuffer := 1 },
         { gpuRead := 0, gpuReturn := 1, backBuffer := 2 }]).gr.frameIndex =
      World.start.gr.frameIndex :=
  (frameIndex_after_presents World.start
    [{ gpuRead := 0, gpuReturn := 0, backBuffer := 1 },
     { gpuRead := 0, gpuReturn := 1, backBuffer := 2 }] (Or.inl rfl)).2.1 (by decide)

theorem indices_in_bounds_witness :
    ∃ w, runOps 64 demoResources (afterSetup 64 99 demoSetup) demoOps = some w ∧
      (w.gr.frameIndex = 0 ∨ w.gr.frameIndex = 1) ∧ w.gr.backBufferIndex < 4 ∧
      w.gr.frameIndex < w.gr.cmdAlloc.length ∧
      w.gr.backBufferIndex < w.gr.swapBuffers.length ∧
      ∀ g, ∃ w1, DrawScene 64 w demoResources g = some w1 :=
  @indices_in_bounds 64 99 demoSetup true (afterSetup 64 99 demoSetup) demoResources demoOps
    (by rfl) (by
      intro e he
      simp [demoOps] at he
      rcases he with rfl | rfl <;> decide)

theorem draw_bracketed_by_transitions_witness :
    (DrawScene 64 (afterSetup 64 99 demoSetup) demoResources 0).map
        (fun w => (submitted w.calls).map (fun cmds => cmds.filter isBarrier)) =
      some [[Cmd.ResourceBarrier 11 ResourceState.PRESENT ResourceState.RENDER_TARGET,
        Cmd.ResourceBarrier 11 ResourceState.RENDER_TARGET ResourceState.PRESENT]] := by
  obtain ⟨cmds, pre, mid, post, h1, -, h2, -⟩ :=
    (@draw_bracketed_by_transitions 64 (afterSetup 64 99 demoSetup) demoResources 0 11
      (by decide) (by rfl)).1
  rw [h1]
  simp only [Option.map_some', Option.some.injEq]
  have : submitted (afterSetup 64 99 demoSetup).calls = [] := by decide
  simp [submitted, List.filterMap_append, h2] at this ⊢
  exact this

theorem WinMain_returns_zero_witness :
    WinMain 64 noDeviceEnv =
        (Outcome.returned 0,
          { World.start with
            gr := { GraphicsContext.zero with factory := 1 }
            calls := [Call.invoke Fn.SetupWindow, Call.invoke Fn.SetupGraphics,
              Call.CreateDXGIFactory1, Call.D3D12CreateDevice false] }) ∧
      (WinMain 64 quitEnv).1 = Outcome.returned 0 := by
  refine ⟨?_, ?_⟩
  · obtain ⟨w, h1, -, -, -, -, -, -, h2, -⟩ :=
      (WinMain_returns_zero 64 noDeviceEnv (by decide)).1 rfl
    rw [h2]
    have h3 : SetupGraphics 64
        { World.start with calls := [Call.invoke Fn.SetupWindow, Call.invoke Fn.SetupGraphics] }
        noDeviceEnv.window noDeviceEnv.setup =
        some (false, { World.start with
            gr := { GraphicsContext.zero with factory := 1 }
            calls := [Call.invoke Fn.SetupWindow, Call.invoke Fn.SetupGraphics,
              Call.CreateDXGIFactory1, Call.D3D12CreateDevice false] }) := by rfl
    rw [h3] at h1
    simp only [Option.some.injEq, Prod.mk.injEq, true_and] at h1
    rw [h1]
  · exact (WinMain_returns_zero 64 quitEnv (by decide)).2.2
      [Pumped.message false,
        Pumped.idle
          { gpuAtReset := 0, present := { gpuRead := 0, gpuReturn := 0, backBuffer := 1 } },
        Pumped.idle
          { gpuAtReset := 0, present := { gpuRead := 0, gpuReturn := 1, backBuffer := 2 } }]
      [Pumped.message false] (by decide) (by decide) (by rfl) (by rfl) (by decide)
      (by
        intro e he
        simp at he
        rcases he with rfl | rfl <;> decide)

end NBody
